import Mathlib

/-
Verification of the TaskPoint task-submission and point-reward server.

The development shallowly embeds the authoritative (rich, six-status) variant
of the server: the shared schema (users/tasks tables and the zod insert,
update, assign and complete schemas), the storage layer (DatabaseStorage) and
the Express route handlers for task submission, review, assignment and
completion.  Databases are lists of rows, timestamps are naturals
(milliseconds), SQL UPDATE ... WHERE is a conditional map over the rows, and
each handler is a pure function from a store and a request to an HTTP-level
result plus the new store.
-/

namespace TaskPoint

/-- The user_role enum of the schema. -/
inductive Role where
  | user
  | admin
deriving DecidableEq, Repr

/-- The task_type enum of the schema. -/
inductive TaskType where
  | content_creation
  | bug_report
  | feature_request
  | community_help
  | documentation
deriving DecidableEq, Repr

/-- The task_status enum of the schema (rich variant). -/
inductive TaskStatus where
  | pending
  | assigned
  | in_progress
  | completed
  | approved
  | rejected
deriving DecidableEq, Repr

/-- A row of the users table. -/
structure User where
  id : Nat
  username : String
  password : String
  role : Role
  totalPoints : Int
  createdAt : Nat
deriving DecidableEq, Repr

/-- A row of the tasks table (rich variant: submitter, assignee, assigner,
reviewer, proof file, deadline, completion timestamp). -/
structure Task where
  id : Nat
  title : String
  description : String
  type : TaskType
  status : TaskStatus
  points : Int
  submittedBy : Option Nat
  assignedTo : Option Nat
  assignedBy : Option Nat
  reviewedBy : Option Nat
  rejectionReason : Option String
  proofFile : Option String
  deadline : Option Nat
  createdAt : Nat
  reviewedAt : Option Nat
  completedAt : Option Nat
deriving DecidableEq, Repr

/-- The persistent store: the users and tasks tables. -/
structure Store where
  users : List User
  tasks : List Task
deriving DecidableEq, Repr

/-- The TASK_POINTS record of the shared schema: the static type-to-points
table. -/
def TASK_POINTS : List (String × Int) :=
  [("content_creation", 50), ("bug_report", 25), ("feature_request", 30),
   ("community_help", 20), ("documentation", 40)]

/-- Accessing TASK_POINTS by key with the handler's fallback:
`TASK_POINTS[t] || 0`, so a key outside the record yields 0. -/
def taskPointsLookup (t : String) : Int :=
  (TASK_POINTS.lookup t).getD 0

/-- The string key of a task type, as it appears in the JSON body and in the
TASK_POINTS record. -/
def TaskType.toKey : TaskType → String
  | .content_creation => "content_creation"
  | .bug_report => "bug_report"
  | .feature_request => "feature_request"
  | .community_help => "community_help"
  | .documentation => "documentation"

/-- Decoding a task-type string of the request body into the enum; strings
outside the enumeration are rejected by the zod enum check. -/
def parseTaskType (s : String) : Option TaskType :=
  if s = "content_creation" then some .content_creation
  else if s = "bug_report" then some .bug_report
  else if s = "feature_request" then some .feature_request
  else if s = "community_help" then some .community_help
  else if s = "documentation" then some .documentation
  else none

/-- The raw JSON body of POST /api/tasks; each field may be absent. -/
structure TaskBody where
  title : Option String := none
  description : Option String := none
  type : Option String := none
  proofFile : Option String := none
deriving DecidableEq, Repr

/-- The value produced by a successful insertTaskSchema.parse. -/
structure InsertTask where
  title : String
  description : String
  type : TaskType
  proofFile : Option String
deriving DecidableEq, Repr

/-- insertTaskSchema.parse: title, description and type are required (the
columns are notNull without default), the type must lie in the task_type
enum, and proofFile is optional. -/
def insertTaskSchemaParse (b : TaskBody) : Option InsertTask :=
  match b.title, b.description, b.type with
  | some ti, some d, some ty =>
    match parseTaskType ty with
    | some tt => some { title := ti, description := d, type := tt, proofFile := b.proofFile }
    | none => none
  | _, _, _ => none

/-- The raw JSON body of PATCH /api/tasks/:id/review. -/
structure ReviewBody where
  status : Option String := none
  points : Option Int := none
  rejectionReason : Option String := none
deriving DecidableEq, Repr

/-- The value produced by a successful updateTaskSchema.parse. -/
structure UpdateTask where
  status : TaskStatus
  points : Int
  rejectionReason : Option String
deriving DecidableEq, Repr

/-- The status strings accepted by updateTaskSchema's z.enum
(["approved", "rejected", "in_progress", "completed", "assigned"]);
"pending" is not among them. -/
def parseReviewStatus (s : String) : Option TaskStatus :=
  if s = "approved" then some .approved
  else if s = "rejected" then some .rejected
  else if s = "in_progress" then some .in_progress
  else if s = "completed" then some .completed
  else if s = "assigned" then some .assigned
  else none

/-- updateTaskSchema.parse: status (from the five-value enum) and points are
required; rejectionReason is optional with no non-emptiness refinement. -/
def updateTaskSchemaParse (b : ReviewBody) : Option UpdateTask :=
  match b.status, b.points with
  | some s, some p =>
    match parseReviewStatus s with
    | some st => some { status := st, points := p, rejectionReason := b.rejectionReason }
    | none => none
  | _, _ => none

/-- The raw JSON body of POST /api/admin/assign-task.  The zod transform
`z.string().transform(str => new Date(str))` on deadline is modelled as the
parsed timestamp. -/
structure AssignBody where
  title : Option String := none
  description : Option String := none
  type : Option String := none
  points : Option Int := none
  assignedTo : Option Nat := none
  deadline : Option Nat := none
deriving DecidableEq, Repr

/-- The value produced by a successful assignTaskSchema.parse.  assignedTo is
a nullable column, hence optional in the insert schema. -/
structure AssignTask where
  title : String
  description : String
  type : TaskType
  points : Int
  assignedTo : Option Nat
  deadline : Nat
deriving DecidableEq, Repr

/-- assignTaskSchema.parse: title, description, type, points and deadline are
required; assignedTo is optional. -/
def assignTaskSchemaParse (b : AssignBody) : Option AssignTask :=
  match b.title, b.description, b.type, b.points, b.deadline with
  | some ti, some d, some ty, some p, some dl =>
    match parseTaskType ty with
    | some tt =>
      some { title := ti, description := d, type := tt, points := p,
             assignedTo := b.assignedTo, deadline := dl }
    | none => none
  | _, _, _, _, _ => none

/-- SELECT * FROM users WHERE id = uid (first row). -/
def getUser (st : Store) (uid : Nat) : Option User :=
  st.users.find? (fun u => u.id == uid)

/-- DatabaseStorage.getTaskById: SELECT * FROM tasks WHERE id = id (first
row). -/
def getTaskById (st : Store) (tid : Nat) : Option Task :=
  st.tasks.find? (fun t => t.id == tid)

/-- UPDATE tasks SET ... WHERE id = tid, with the SET clause given as a row
transformer. -/
def updateTaskStore (st : Store) (tid : Nat) (f : Task → Task) : Store :=
  { st with tasks := st.tasks.map (fun t => if t.id == tid then f t else t) }

/-- DatabaseStorage.updateUserPoints: UPDATE users SET total_points =
total_points + delta WHERE id = uid.  The user id argument comes from a
nullable column, and `id = NULL` matches no row. -/
def updateUserPoints (st : Store) (uid : Option Nat) (delta : Int) : Store :=
  { st with
    users := st.users.map (fun u =>
      if some u.id == uid then { u with totalPoints := u.totalPoints + delta } else u) }

/-- The outcome of a request: a JSON value with 200/201, or an error status
with its message body. -/
inductive HResult (α : Type) where
  | ok (value : α)
  | err (status : Nat) (message : String)
deriving DecidableEq, Repr

/-- Whether a result is a 200/201 success. -/
def HResult.isOk {α : Type} : HResult α → Bool
  | .ok _ => true
  | .err _ _ => false

/-- Insertion into a list sorted descending by an integer key. -/
def insertByDesc {α : Type} (key : α → Int) (x : α) : List α → List α
  | [] => [x]
  | y :: ys => if key y ≤ key x then x :: y :: ys else y :: insertByDesc key x ys

/-- ORDER BY key DESC. -/
def sortByDesc {α : Type} (key : α → Int) : List α → List α
  | [] => []
  | x :: xs => insertByDesc key x (sortByDesc key xs)

/-- The SET clause of the review handler's updateTask call: the spread of the
parsed body ({status, points, rejectionReason?}) plus reviewedBy and
reviewedAt.  An absent rejectionReason key is not part of the SET clause, so
the stored value is untouched. -/
def applyReviewUpdate (v : UpdateTask) (reviewerId : Nat) (now : Nat) (t : Task) : Task :=
  { t with
    status := v.status
    points := v.points
    rejectionReason := (match v.rejectionReason with
      | some r => some r
      | none => t.rejectionReason)
    reviewedBy := some reviewerId
    reviewedAt := some now }

/-- The row created by POST /api/tasks: the parsed body, the caller as
submitter, the looked-up points, and the DB defaults (status pending, no
assignee, no assigner, no reviewer, no deadline). -/
def mkSubmittedTask (caller : User) (v : InsertTask) (newId : Nat) (now : Nat) : Task :=
  { id := newId
    title := v.title
    description := v.description
    type := v.type
    status := .pending
    points := taskPointsLookup v.type.toKey
    submittedBy := some caller.id
    assignedTo := none
    assignedBy := none
    reviewedBy := none
    rejectionReason := none
    proofFile := v.proofFile
    deadline := none
    createdAt := now
    reviewedAt := none
    completedAt := none }

/-- POST /api/tasks.  The caller is the authenticated session user (the 401
guard for missing sessions sits upstream of the modelled logic).  A zod parse
failure is caught and answered with 400 "Invalid task data". -/
def submitTask (st : Store) (caller : User) (body : TaskBody) (newId : Nat) (now : Nat) :
    HResult Task × Store :=
  match insertTaskSchemaParse body with
  | none => (.err 400 "Invalid task data", st)
  | some v =>
    let t := mkSubmittedTask caller v newId now
    (.ok t, { st with tasks := st.tasks ++ [t] })

/-- PATCH /api/tasks/:id/review.  Admin guard first; then the body is parsed,
the task is fetched, the task row is updated (status, points, optional
rejection reason, reviewer, review timestamp), and — when the new status is
"approved" and the points value is truthy — updateUserPoints credits the
task's submittedBy.  No check of the task's current status is made anywhere
on this path. -/
def reviewTask (st : Store) (caller : User) (taskId : Nat) (body : ReviewBody) (now : Nat) :
    HResult (Option Task) × Store :=
  if caller.role != Role.admin then (.err 403 "Admin access required", st)
  else
    match updateTaskSchemaParse body with
    | none => (.err 400 "Invalid review data", st)
    | some v =>
      match getTaskById st taskId with
      | none => (.err 404 "Task not found", st)
      | some task =>
        let st1 := updateTaskStore st taskId (applyReviewUpdate v caller.id now)
        let upd := getTaskById st1 taskId
        let st2 := if v.status == TaskStatus.approved && v.points != 0
                   then updateUserPoints st1 task.submittedBy v.points
                   else st1
        (.ok upd, st2)

/-- The row created by POST /api/admin/assign-task: the parsed body, the
caller as assigner, status "assigned", no submitter. -/
def mkAssignedTask (caller : User) (v : AssignTask) (newId : Nat) (now : Nat) : Task :=
  { id := newId
    title := v.title
    description := v.description
    type := v.type
    status := .assigned
    points := v.points
    submittedBy := none
    assignedTo := v.assignedTo
    assignedBy := some caller.id
    reviewedBy := none
    rejectionReason := none
    proofFile := none
    deadline := some v.deadline
    createdAt := now
    reviewedAt := none
    completedAt := none }

/-- POST /api/admin/assign-task.  Admin guard first (res.sendStatus(403)
answers with the status text "Forbidden"); a parse failure is answered with
400. -/
def assignTask (st : Store) (caller : User) (body : AssignBody) (newId : Nat) (now : Nat) :
    HResult Task × Store :=
  if caller.role != Role.admin then (.err 403 "Forbidden", st)
  else
    match assignTaskSchemaParse body with
    | none => (.err 400 "Invalid task assignment data", st)
    | some v =>
      let t := mkAssignedTask caller v newId now
      (.ok t, { st with tasks := st.tasks ++ [t] })

/-- The SET clause of DatabaseStorage.completeTask as a row transformer:
optional proof file path, status "completed", completion timestamp.  An
absent proofFile leaves the stored value untouched. -/
def completionUpdate (proofFilePath : Option String) (now : Nat) (t : Task) : Task :=
  { t with
    proofFile := (match proofFilePath with
      | some p => some p
      | none => t.proofFile)
    status := .completed
    completedAt := some now }

/-- POST /api/tasks/:id/complete.  The caller is the authenticated session
user; proofFilePath is the stored path of the uploaded file, when one was
sent.  A missing task or one not assigned to the caller answers 404; a status
outside {assigned, in_progress} answers 400 "Task cannot be completed";
otherwise the completion update is applied and the updated row returned. -/
def completeAssignedTask (st : Store) (caller : User) (taskId : Nat)
    (proofFilePath : Option String) (now : Nat) : HResult (Option Task) × Store :=
  match getTaskById st taskId with
  | none => (.err 404 "Task not found or not assigned to you", st)
  | some task =>
    if task.assignedTo != some caller.id then
      (.err 404 "Task not found or not assigned to you", st)
    else if task.status != TaskStatus.assigned && task.status != TaskStatus.in_progress then
      (.err 400 "Task cannot be completed", st)
    else
      let st1 := updateTaskStore st taskId (completionUpdate proofFilePath now)
      (.ok (getTaskById st1 taskId), st1)

/-- DatabaseStorage.getPendingTasks: the pending tasks, newest first. -/
def getPendingTasks (st : Store) : List Task :=
  sortByDesc (fun t => (t.createdAt : Int)) (st.tasks.filter (fun t => t.status == TaskStatus.pending))

/-- GET /api/tasks/pending (admin only); a pure read. -/
def listPendingTasks (st : Store) (caller : User) : HResult (List Task) :=
  if caller.role != Role.admin then .err 403 "Admin access required"
  else .ok (getPendingTasks st)

/-- DatabaseStorage.getTasksByUser: the caller's submitted tasks, newest
first. -/
def getTasksByUser (st : Store) (uid : Nat) : List Task :=
  sortByDesc (fun t => (t.createdAt : Int)) (st.tasks.filter (fun t => t.submittedBy == some uid))

/-- The stats object of GET /api/user/stats. -/
structure UserStats where
  totalPoints : Int
  completedTasks : Nat
  pendingTasks : Nat
  rank : Int
deriving DecidableEq, Repr

/-- Rows numbered by ROW_NUMBER() OVER (ORDER BY total_points DESC): the rows
are sorted by the window ordering and paired with their 1-based position. -/
def rowNumbersByPointsDesc (rows : List User) : List (Nat × User) :=
  List.enumFrom 1 (sortByDesc (fun u => u.totalPoints) rows)

/-- The rank query of DatabaseStorage.getUserStats:
SELECT ROW_NUMBER() OVER (ORDER BY total_points DESC) AS rank FROM users
WHERE role = 'user' AND id = userId.  The window function numbers only the
rows surviving the WHERE filter; the handler destructures the first returned
row and falls back to 0 (`rankResult?.rank || 0`). -/
def rankQuery (usersList : List User) (uid : Nat) : Int :=
  match rowNumbersByPointsDesc
      (usersList.filter (fun u => u.role == Role.user && u.id == uid)) with
  | [] => 0
  | (r, _) :: _ => (r : Int)

/-- DatabaseStorage.getUserStats: the all-zero object for an unknown user;
otherwise the authoritative totalPoints, the approved and pending counts over
the user's submitted tasks, and the rank query. -/
def getUserStats (st : Store) (uid : Nat) : UserStats :=
  match getUser st uid with
  | none => { totalPoints := 0, completedTasks := 0, pendingTasks := 0, rank := 0 }
  | some u =>
    let userTasks := getTasksByUser st uid
    { totalPoints := u.totalPoints
      completedTasks := (userTasks.filter (fun t => t.status == TaskStatus.approved)).length
      pendingTasks := (userTasks.filter (fun t => t.status == TaskStatus.pending)).length
      rank := rankQuery st.users uid }

/-- The stats object of GET /api/admin/stats. -/
structure AdminStats where
  pendingTasks : Nat
  approvedToday : Nat
  pointsDistributed : Int
  activeUsers : Nat
deriving DecidableEq, Repr

/-- Milliseconds per calendar day; DATE(ts) = CURRENT_DATE is modelled as
equality of the day numbers of the two millisecond timestamps. -/
def msPerDay : Nat := 86400000

/-- DATE(a) = DATE(b) on millisecond timestamps. -/
def sameCalendarDay (a b : Nat) : Bool :=
  a / msPerDay == b / msPerDay

/-- DatabaseStorage.getAdminStats at current time `now`. -/
def getAdminStats (st : Store) (now : Nat) : AdminStats :=
  { pendingTasks := (st.tasks.filter (fun t => t.status == TaskStatus.pending)).length
    approvedToday := (st.tasks.filter (fun t =>
        t.status == TaskStatus.approved &&
          (match t.reviewedAt with
           | some r => sameCalendarDay r now
           | none => false))).length
    pointsDistributed :=
      ((st.users.filter (fun u => u.role == Role.user)).map User.totalPoints).sum
    activeUsers := (st.users.filter (fun u => u.role == Role.user)).length }

/-- GET /api/admin/stats (admin only); a pure read. -/
def adminStatsHandler (st : Store) (caller : User) (now : Nat) : HResult AdminStats :=
  if caller.role != Role.admin then .err 403 "Admin access required"
  else .ok (getAdminStats st now)

/-- The total points currently recorded for a user id (0 when the id matches
no row). -/
def totalPointsOf (st : Store) (uid : Nat) : Int :=
  ((getUser st uid).map User.totalPoints).getD 0

/-- Rank as the specification words it: the 1-based position of the user in
the list of all role=user accounts sorted by total points descending
(0 when the user does not appear).  This definition follows the spec's words
and is compared against the rank computed by the source's query. -/
def specRankDescByPoints (usersList : List User) (uid : Nat) : Int :=
  match (rowNumbersByPointsDesc (usersList.filter (fun u => u.role == Role.user))).find?
      (fun ru => ru.2.id == uid) with
  | some (r, _) => (r : Int)
  | none => 0

/-- The stores visible at the statement boundaries of the review handler's
approval path: before any write, after the updateTask statement, and after
the updateUserPoints statement.  Each db statement is individually atomic,
but the handler wraps the two in no transaction, so an execution that fails
between them leaves the middle store behind. -/
def reviewWriteStates (st : Store) (caller : User) (taskId : Nat) (body : ReviewBody) (now : Nat) :
    List Store :=
  if caller.role != Role.admin then [st]
  else
    match updateTaskSchemaParse body with
    | none => [st]
    | some v =>
      match getTaskById st taskId with
      | none => [st]
      | some task =>
        let st1 := updateTaskStore st taskId (applyReviewUpdate v caller.id now)
        let st2 := if v.status == TaskStatus.approved && v.points != 0
                   then updateUserPoints st1 task.submittedBy v.points
                   else st1
        [st, st1, st2]

/-- An operation of the lifecycle surface, with all request data supplied. -/
inductive Op where
  | submit (caller : User) (body : TaskBody) (newId : Nat) (now : Nat)
  | assign (caller : User) (body : AssignBody) (newId : Nat) (now : Nat)
  | review (caller : User) (taskId : Nat) (body : ReviewBody) (now : Nat)
  | complete (caller : User) (taskId : Nat) (proofFilePath : Option String) (now : Nat)

/-- The store left behind by one operation. -/
def applyOp (st : Store) : Op → Store
  | .submit c b i n => (submitTask st c b i n).2
  | .assign c b i n => (assignTask st c b i n).2
  | .review c t b n => (reviewTask st c t b n).2
  | .complete c t p n => (completeAssignedTask st c t p n).2

/-- The store left behind by a sequence of operations. -/
def applyOps (st : Store) (ops : List Op) : Store :=
  ops.foldl applyOp st

/-- Whether an operation carries a nonnegative point award: true for every
operation except a review whose body holds a negative points value. -/
def nonnegAward : Op → Bool
  | .review _ _ body _ =>
    match body.points with
    | some p => decide (0 ≤ p)
    | none => true
  | _ => true

/- Concrete fixtures used to evaluate the handlers. -/

/-- An admin account. -/
def adminU : User :=
  { id := 9, username := "admin", password := "pw", role := .admin, totalPoints := 0, createdAt := 0 }

/-- A regular account with no points yet. -/
def aliceU : User :=
  { id := 1, username := "alice", password := "pw", role := .user, totalPoints := 0, createdAt := 0 }

/-- A second regular account with no points yet. -/
def bobU : User :=
  { id := 2, username := "bob", password := "pw", role := .user, totalPoints := 0, createdAt := 0 }

/-- A self-submitted bug_report task, still pending. -/
def pendingTask1 : Task :=
  { id := 1, title := "Login fails", description := "login button broken", type := .bug_report,
    status := .pending, points := 25, submittedBy := some 1, assignedTo := none,
    assignedBy := none, reviewedBy := none, rejectionReason := none, proofFile := none,
    deadline := none, createdAt := 10, reviewedAt := none, completedAt := none }

/-- A store with three accounts and one pending self-submitted task. -/
def baseStore : Store := { users := [aliceU, bobU, adminU], tasks := [pendingTask1] }

/-- The pending task after a first approval awarding 25 points. -/
def c1ApprovedTask : Task :=
  { pendingTask1 with status := .approved, points := 25, reviewedBy := some 9, reviewedAt := some 50 }

/-- A store in which task 1 is already terminal (approved) and its submitter
already holds the 25 awarded points. -/
def c1Store : Store :=
  { users := [{ aliceU with totalPoints := 25 }, adminU], tasks := [c1ApprovedTask] }

/-- A second review of the already-approved task, approving it again. -/
def c1Body : ReviewBody := { status := some "approved", points := some 25 }

/-- A rejection carrying no rejectionReason at all. -/
def c2Body : ReviewBody := { status := some "rejected", points := some 0, rejectionReason := none }

/-- An admin-assigned documentation task, completed by its assignee and
awaiting review; it has no submitter. -/
def c3AssignedTask : Task :=
  { id := 3, title := "Write the guide", description := "user guide", type := .documentation,
    status := .completed, points := 40, submittedBy := none, assignedTo := some 2,
    assignedBy := some 9, reviewedBy := none, rejectionReason := none,
    proofFile := some "/uploads/proof-files/guide.pdf", deadline := some 1000,
    createdAt := 10, reviewedAt := none, completedAt := some 60 }

/-- A store holding the completed admin-assigned task and its assignee. -/
def c3Store : Store := { users := [bobU, adminU], tasks := [c3AssignedTask] }

/-- Approving the assigned task with its nominal 40 points. -/
def c3Body : ReviewBody := { status := some "approved", points := some 40 }

/-- Approving the pending task with 25 points. -/
def c4Body : ReviewBody := { status := some "approved", points := some 25 }

/-- A well-formed submission body. -/
def c5GoodBody : TaskBody :=
  { title := some "Login fails", description := some "login button broken",
    type := some "bug_report" }

/-- The parse result of the well-formed submission body. -/
def c5GoodParsed : InsertTask :=
  { title := "Login fails", description := "login button broken", type := .bug_report,
    proofFile := none }

/-- A submission body whose type lies outside the enumeration. -/
def c5BadBody : TaskBody :=
  { title := some "Pay me", description := some "gimme", type := some "payday" }

/-- An admin-assigned task still in status assigned, owned by bob. -/
def c6AssignedTask : Task :=
  { id := 4, title := "Fix flaky test", description := "ci test", type := .bug_report,
    status := .assigned, points := 25, submittedBy := none, assignedTo := some 2,
    assignedBy := some 9, reviewedBy := none, rejectionReason := none, proofFile := none,
    deadline := some 2000, createdAt := 10, reviewedAt := none, completedAt := none }

/-- The same assignment already completed (status outside the allowed set). -/
def c6DoneTask : Task :=
  { c6AssignedTask with id := 5, status := .completed, completedAt := some 60 }

/-- A store with one completable and one already-completed assigned task. -/
def c6Store : Store := { users := [bobU, adminU], tasks := [c6AssignedTask, c6DoneTask] }

/-- An empty assign-task request body. -/
def emptyAssignBody : AssignBody := {}

/-- Two regular accounts: one with 10 points, one with 50. -/
def c8Store : Store :=
  { users := [{ aliceU with totalPoints := 10 }, { bobU with totalPoints := 50 }], tasks := [] }

/-- An approval carrying a negative points value; the schema only requires
points to be a number. -/
def c9NegBody : ReviewBody := { status := some "approved", points := some (-5) }

/-- A review operation with a nonnegative award. -/
def c9GoodOp : Op :=
  .review adminU 1 { status := some "approved", points := some 25, rejectionReason := none } 100

/- Helper lemmas about the store primitives. -/

/-- A conditional row update with an id-preserving transformer does not
change which row an id-keyed find? returns; it only transforms it. -/
lemma find?_map_update (ts : List Task) (tid : Nat) (f : Task → Task)
    (hf : ∀ t, (f t).id = t.id) :
    (ts.map (fun t => if t.id == tid then f t else t)).find? (fun t => t.id == tid)
      = (ts.find? (fun t => t.id == tid)).map f := by
  rw [List.find?_map]
  have hpred : ((fun t : Task => t.id == tid) ∘ fun t => if t.id == tid then f t else t)
      = fun t : Task => t.id == tid := by
    funext t
    cases hb : (t.id == tid) with
    | true => simp [Function.comp, hb, hf t]
    | false => simp [Function.comp, hb]
  rw [hpred]
  cases hfind : ts.find? (fun t => t.id == tid) with
  | none => rfl
  | some t =>
    have hp : (t.id == tid) = true := by
      have h2 := List.find?_some hfind
      simpa using h2
    show some (if t.id == tid then f t else t) = some (f t)
    rw [if_pos hp]

/-- getTaskById after an UPDATE ... WHERE id = tid returns the transformed
row. -/
lemma getTaskById_updateTaskStore (st : Store) (tid : Nat) (f : Task → Task)
    (hf : ∀ t, (f t).id = t.id) :
    getTaskById (updateTaskStore st tid f) tid = (getTaskById st tid).map f := by
  dsimp only [getTaskById, updateTaskStore]
  exact find?_map_update st.tasks tid f hf

/-- The row transformer of updateUserPoints keeps the user's id. -/
lemma pointsUpdateRow_id (uid? : Option Nat) (d : Int) (u : User) :
    (if some u.id == uid? then { u with totalPoints := u.totalPoints + d } else u).id = u.id := by
  split <;> rfl

/-- getUser after updateUserPoints returns the same row, transformed. -/
lemma getUser_updateUserPoints (st : Store) (uid? : Option Nat) (d : Int) (uid : Nat) :
    getUser (updateUserPoints st uid? d) uid =
      (getUser st uid).map (fun u =>
        if some u.id == uid? then { u with totalPoints := u.totalPoints + d } else u) := by
  dsimp only [getUser, updateUserPoints]
  rw [List.find?_map]
  have hpred : ((fun u : User => u.id == uid) ∘ fun u =>
      if some u.id == uid? then { u with totalPoints := u.totalPoints + d } else u)
      = fun u : User => u.id == uid := by
    funext u
    show ((if some u.id == uid? then { u with totalPoints := u.totalPoints + d } else u).id == uid)
        = (u.id == uid)
    rw [pointsUpdateRow_id]
  rw [hpred]

/-- updateTaskStore leaves the users table alone. -/
lemma users_updateTaskStore (st : Store) (tid : Nat) (f : Task → Task) :
    (updateTaskStore st tid f).users = st.users := rfl

/-- submitTask never writes the users table. -/
lemma users_submitTask (st : Store) (c : User) (b : TaskBody) (i n : Nat) :
    (submitTask st c b i n).2.users = st.users := by
  unfold submitTask
  split <;> rfl

/-- assignTask never writes the users table. -/
lemma users_assignTask (st : Store) (c : User) (b : AssignBody) (i n : Nat) :
    (assignTask st c b i n).2.users = st.users := by
  unfold assignTask
  split
  · rfl
  · split <;> rfl

/-- completeAssignedTask never writes the users table. -/
lemma users_completeAssignedTask (st : Store) (c : User) (t : Nat) (p : Option String) (n : Nat) :
    (completeAssignedTask st c t p n).2.users = st.users := by
  unfold completeAssignedTask
  split
  · rfl
  · split
    · rfl
    · split
      · rfl
      · rfl

/-- totalPointsOf only reads the users table. -/
lemma totalPointsOf_congr_users (st st' : Store) (h : st.users = st'.users) (uid : Nat) :
    totalPointsOf st uid = totalPointsOf st' uid := by
  unfold totalPointsOf getUser
  rw [h]

/-- Crediting a nonnegative delta never lowers anyone's total. -/
lemma totalPointsOf_updateUserPoints_le (st : Store) (uid? : Option Nat) (d : Int)
    (uid : Nat) (hd : 0 ≤ d) :
    totalPointsOf st uid ≤ totalPointsOf (updateUserPoints st uid? d) uid := by
  unfold totalPointsOf
  rw [getUser_updateUserPoints]
  cases getUser st uid with
  | none => exact le_refl _
  | some u =>
    show u.totalPoints ≤
      (if some u.id == uid? then { u with totalPoints := u.totalPoints + d } else u).totalPoints
    split
    · show u.totalPoints ≤ u.totalPoints + d
      omega
    · exact le_refl _

/-- A successful updateTaskSchema.parse reads its points straight from the
body. -/
lemma updateTaskSchemaParse_points (b : ReviewBody) (v : UpdateTask)
    (h : updateTaskSchemaParse b = some v) : b.points = some v.points := by
  unfold updateTaskSchemaParse at h
  rcases hs : b.status with _ | s
  · rw [hs] at h
    exact absurd h (by simp)
  · rcases hp : b.points with _ | p
    · rw [hs, hp] at h
      exact absurd h (by simp)
    · rw [hs, hp] at h
      dsimp only at h
      cases hps : parseReviewStatus s
      · rw [hps] at h
        exact absurd h (by simp)
      · rw [hps] at h
        dsimp only at h
        cases h
        rfl

/-- A string outside the task_type enumeration is also outside the
TASK_POINTS record, so the lookup falls back to 0. -/
lemma taskPointsLookup_of_not_enum (s : String) (h : parseTaskType s = none) :
    taskPointsLookup s = 0 := by
  unfold parseTaskType at h
  split_ifs at h with h1 h2 h3 h4 h5
  have e1 : (s == "content_creation") = false := by simpa using h1
  have e2 : (s == "bug_report") = false := by simpa using h2
  have e3 : (s == "feature_request") = false := by simpa using h3
  have e4 : (s == "community_help") = false := by simpa using h4
  have e5 : (s == "documentation") = false := by simpa using h5
  simp [taskPointsLookup, TASK_POINTS, List.lookup, e1, e2, e3, e4, e5]

/-- The last statement-boundary store of the approval path is the store the
handler finally answers with. -/
lemma reviewWriteStates_last (st : Store) (caller : User) (tid : Nat)
    (body : ReviewBody) (now : Nat) :
    (reviewWriteStates st caller tid body now).getLast? =
      some (reviewTask st caller tid body now).2 := by
  by_cases hr : (caller.role != Role.admin) = true
  · simp [reviewWriteStates, reviewTask, hr]
  · cases hp : updateTaskSchemaParse body with
    | none => simp [reviewWriteStates, reviewTask, hr, hp]
    | some v =>
      cases ht : getTaskById st tid with
      | none => simp [reviewWriteStates, reviewTask, hr, hp, ht]
      | some task => simp [reviewWriteStates, reviewTask, hr, hp, ht]

/-- Evaluation of the review handler for an admin caller, a parsed body and
an existing task. -/
lemma reviewTask_admin_found (st : Store) (caller : User) (tid : Nat) (body : ReviewBody)
    (now : Nat) (v : UpdateTask) (t : Task)
    (hrole : caller.role = Role.admin)
    (hp : updateTaskSchemaParse body = some v)
    (ht : getTaskById st tid = some t) :
    reviewTask st caller tid body now =
      (.ok (getTaskById (updateTaskStore st tid (applyReviewUpdate v caller.id now)) tid),
       if v.status == TaskStatus.approved && v.points != 0 then
         updateUserPoints (updateTaskStore st tid (applyReviewUpdate v caller.id now))
           t.submittedBy v.points
       else updateTaskStore st tid (applyReviewUpdate v caller.id now)) := by
  have hne : (caller.role != Role.admin) = false := by
    rw [hrole]
    rfl
  unfold reviewTask
  rw [hne, hp, ht]
  rfl

/-- Evaluation of the completion handler once the task has been fetched. -/
lemma completeAssignedTask_found (st : Store) (caller : User) (tid : Nat)
    (p : Option String) (now : Nat) (t : Task) (ht : getTaskById st tid = some t) :
    completeAssignedTask st caller tid p now =
      if t.assignedTo != some caller.id then
        (.err 404 "Task not found or not assigned to you", st)
      else if t.status != TaskStatus.assigned && t.status != TaskStatus.in_progress then
        (.err 400 "Task cannot be completed", st)
      else
        (.ok (getTaskById (updateTaskStore st tid (completionUpdate p now)) tid),
         updateTaskStore st tid (completionUpdate p now)) := by
  unfold completeAssignedTask
  rw [ht]

/-- One operation never lowers anyone's total when its award is
nonnegative. -/
lemma totalPointsOf_applyOp_mono (st : Store) (op : Op) (uid : Nat)
    (h : nonnegAward op = true) :
    totalPointsOf st uid ≤ totalPointsOf (applyOp st op) uid := by
  cases op with
  | submit c b i n =>
    exact le_of_eq (totalPointsOf_congr_users st _ (users_submitTask st c b i n).symm uid)
  | assign c b i n =>
    exact le_of_eq (totalPointsOf_congr_users st _ (users_assignTask st c b i n).symm uid)
  | complete c t p n =>
    exact le_of_eq (totalPointsOf_congr_users st _ (users_completeAssignedTask st c t p n).symm uid)
  | review c t b n =>
    show totalPointsOf st uid ≤ totalPointsOf (reviewTask st c t b n).2 uid
    unfold reviewTask
    by_cases hr : (c.role != Role.admin) = true
    · rw [if_pos hr]
    · rw [if_neg hr]
      cases hp : updateTaskSchemaParse b with
      | none => exact le_refl _
      | some v =>
        cases ht : getTaskById st t with
        | none => exact le_refl _
        | some task =>
          show totalPointsOf st uid ≤ totalPointsOf
            (if v.status == TaskStatus.approved && v.points != 0
             then updateUserPoints (updateTaskStore st t (applyReviewUpdate v c.id n))
                    task.submittedBy v.points
             else updateTaskStore st t (applyReviewUpdate v c.id n)) uid
          by_cases hc : (v.status == TaskStatus.approved && v.points != 0) = true
          · rw [if_pos hc]
            have h0 : 0 ≤ v.points := by
              have hbp := updateTaskSchemaParse_points b v hp
              unfold nonnegAward at h
              dsimp only at h
              rw [hbp] at h
              dsimp only at h
              exact of_decide_eq_true h
            calc totalPointsOf st uid
                = totalPointsOf (updateTaskStore st t (applyReviewUpdate v c.id n)) uid :=
                  totalPointsOf_congr_users _ _ rfl uid
              _ ≤ _ := totalPointsOf_updateUserPoints_le _ _ _ _ h0
          · rw [if_neg hc]
            exact le_of_eq (totalPointsOf_congr_users _ _ rfl uid)

/- The claims. -/

/-- C1: the review handler never inspects the task's current status, so a
reviewTask call on a task already in the terminal status approved succeeds
(no InvalidStateError), rewrites the task record and runs the point award a
second time: the submitter's total climbs from 25 to 50. -/
theorem c1_terminal_rereview_code_bug :
    (reviewTask c1Store adminU 1 c1Body 100).1.isOk = true ∧
    ((getTaskById (reviewTask c1Store adminU 1 c1Body 100).2 1).map Task.reviewedAt)
      = some (some 100) ∧
    totalPointsOf c1Store 1 = 25 ∧
    totalPointsOf (reviewTask c1Store adminU 1 c1Body 100).2 1 = 50 := by decide

/-- C2 counterexample: a reviewTask call with decision=rejected and a missing
rejectionReason does not fail with ValidationError — it succeeds and moves
the pending task to rejected. -/
theorem c2_counterexample :
    (reviewTask baseStore adminU 1 c2Body 100).1.isOk = true ∧
    ((getTaskById (reviewTask baseStore adminU 1 c2Body 100).2 1).map Task.status)
      = some TaskStatus.rejected := by decide

/-- C2 (amended): an admin reviewTask call with decision=rejected whose body
carries a points number is accepted even when rejectionReason is empty or
missing — updateTaskSchema leaves rejectionReason optional and the handler
adds no check.  The task's status is set to rejected and no user's points
change. -/
theorem c2_rejected_without_reason_accepted (st : Store) (caller : User) (tid : Nat)
    (body : ReviewBody) (now : Nat) (t : Task) (p : Int)
    (hrole : caller.role = Role.admin)
    (hstatus : body.status = some "rejected")
    (hpoints : body.points = some p)
    (htask : getTaskById st tid = some t) :
    (reviewTask st caller tid body now).1.isOk = true ∧
    ((getTaskById (reviewTask st caller tid body now).2 tid).map Task.status)
      = some TaskStatus.rejected ∧
    (reviewTask st caller tid body now).2.users = st.users := by
  have hparse : updateTaskSchemaParse body =
      some { status := .rejected, points := p, rejectionReason := body.rejectionReason } := by
    unfold updateTaskSchemaParse
    rw [hstatus, hpoints]
    rfl
  rw [reviewTask_admin_found st caller tid body now _ t hrole hparse htask]
  refine ⟨rfl, ?_, rfl⟩
  show ((getTaskById (updateTaskStore st tid (applyReviewUpdate
      { status := .rejected, points := p, rejectionReason := body.rejectionReason }
      caller.id now)) tid).map Task.status) = some TaskStatus.rejected
  rw [getTaskById_updateTaskStore st tid (applyReviewUpdate
      { status := .rejected, points := p, rejectionReason := body.rejectionReason }
      caller.id now) (fun x => rfl), htask]
  rfl

/-- Witness for C2's amended theorem at a concrete input. -/
theorem c2_rejected_without_reason_witness :
    (reviewTask baseStore adminU 1 c2Body 100).1.isOk = true ∧
    ((getTaskById (reviewTask baseStore adminU 1 c2Body 100).2 1).map Task.status)
      = some TaskStatus.rejected ∧
    (reviewTask baseStore adminU 1 c2Body 100).2.users = baseStore.users :=
  c2_rejected_without_reason_accepted baseStore adminU 1 c2Body 100 pendingTask1 0
    (by decide) (by decide) (by decide) (by decide)

/-- C3: approving a completed admin-assigned task succeeds and marks it
approved, but credits nobody: the handler awards to task.submittedBy, which
is absent for admin-assigned tasks, so the users table is left byte-for-byte
unchanged and the assignee keeps 0 points instead of gaining 40. -/
theorem c3_assignee_not_credited_code_bug :
    (reviewTask c3Store adminU 3 c3Body 100).1.isOk = true ∧
    ((getTaskById (reviewTask c3Store adminU 3 c3Body 100).2 3).map Task.status)
      = some TaskStatus.approved ∧
    (reviewTask c3Store adminU 3 c3Body 100).2.users = c3Store.users ∧
    totalPointsOf (reviewTask c3Store adminU 3 c3Body 100).2 2 = 0 := by decide

/-- C4: the approval path is not atomic.  At the statement boundary between
the updateTask write and the updateUserPoints write (index 1 of the
boundary-store list) the task is already approved while the submitter still
has 0 points — exactly the partial state the claim says can never exist;
only after the second write (index 2) are the 25 points credited. -/
theorem c4_approval_not_atomic_code_bug :
    ((reviewWriteStates baseStore adminU 1 c4Body 100)[1]?).map
        (fun s => (((getTaskById s 1).map Task.status), totalPointsOf s 1))
      = some (some TaskStatus.approved, 0) ∧
    ((reviewWriteStates baseStore adminU 1 c4Body 100)[2]?).map
        (fun s => (((getTaskById s 1).map Task.status), totalPointsOf s 1))
      = some (some TaskStatus.approved, 25) := by decide

/-- C5: an authenticated submitTask call whose body parses (title,
description and an enumerated type all present) creates exactly one task with
status pending, no deadline, no assignee, the caller as submitter and points
given by the static TASK_POINTS table (content_creation 50, bug_report 25,
feature_request 30, community_help 20, documentation 40; a key outside the
table yields 0); a body with a missing field or a type outside the
enumeration fails with 400 and creates no task, and the parse fails exactly
in those cases. -/
theorem c5_submitTask (st : Store) (caller : User) (body : TaskBody) (newId now : Nat) :
    (∀ v, insertTaskSchemaParse body = some v →
      submitTask st caller body newId now =
        (HResult.ok (mkSubmittedTask caller v newId now),
         { st with tasks := st.tasks ++ [mkSubmittedTask caller v newId now] }) ∧
      (mkSubmittedTask caller v newId now).status = TaskStatus.pending ∧
      (mkSubmittedTask caller v newId now).deadline = none ∧
      (mkSubmittedTask caller v newId now).assignedTo = none ∧
      (mkSubmittedTask caller v newId now).submittedBy = some caller.id ∧
      (mkSubmittedTask caller v newId now).points = taskPointsLookup v.type.toKey) ∧
    (insertTaskSchemaParse body = none →
      submitTask st caller body newId now = (HResult.err 400 "Invalid task data", st)) ∧
    (insertTaskSchemaParse body = none ↔
      body.title = none ∨ body.description = none ∨ body.type = none ∨
        (∃ s, body.type = some s ∧ parseTaskType s = none)) ∧
    taskPointsLookup "content_creation" = 50 ∧
    taskPointsLookup "bug_report" = 25 ∧
    taskPointsLookup "feature_request" = 30 ∧
    taskPointsLookup "community_help" = 20 ∧
    taskPointsLookup "documentation" = 40 ∧
    (∀ s, parseTaskType s = none → taskPointsLookup s = 0) := by
  refine ⟨?_, ?_, ?_, by decide, by decide, by decide, by decide, by decide,
    taskPointsLookup_of_not_enum⟩
  · intro v hv
    refine ⟨?_, rfl, rfl, rfl, rfl, rfl⟩
    unfold submitTask
    rw [hv]
  · intro hnone
    unfold submitTask
    rw [hnone]
  · constructor
    · intro hnone
      rcases ht : body.title with _ | ti
      · exact Or.inl rfl
      · rcases hd : body.description with _ | d
        · exact Or.inr (Or.inl rfl)
        · rcases hty : body.type with _ | ty
          · exact Or.inr (Or.inr (Or.inl rfl))
          · refine Or.inr (Or.inr (Or.inr ⟨ty, rfl, ?_⟩))
            unfold insertTaskSchemaParse at hnone
            rw [ht, hd, hty] at hnone
            dsimp only at hnone
            cases hpt : parseTaskType ty
            · rfl
            · rw [hpt] at hnone
              exact absurd hnone (by simp)
    · intro hcases
      unfold insertTaskSchemaParse
      rcases hcases with h | h | h | ⟨s, hs, hps⟩
      · rw [h]
      · rw [h]
        cases body.title <;> rfl
      · rw [h]
        cases body.title <;> cases body.description <;> rfl
      · rw [hs]
        cases body.title <;> cases body.description <;> simp [hps]

/-- Witness for C5 at a concrete well-formed and a concrete ill-formed
body. -/
theorem c5_submitTask_witness :
    submitTask baseStore aliceU c5GoodBody 7 99 =
      (HResult.ok (mkSubmittedTask aliceU c5GoodParsed 7 99),
       { baseStore with tasks := baseStore.tasks ++ [mkSubmittedTask aliceU c5GoodParsed 7 99] }) ∧
    (mkSubmittedTask aliceU c5GoodParsed 7 99).status = TaskStatus.pending ∧
    submitTask baseStore aliceU c5BadBody 7 99 = (HResult.err 400 "Invalid task data", baseStore) :=
  ⟨((c5_submitTask baseStore aliceU c5GoodBody 7 99).1 c5GoodParsed (by decide)).1,
   ((c5_submitTask baseStore aliceU c5GoodBody 7 99).1 c5GoodParsed (by decide)).2.1,
   ((c5_submitTask baseStore aliceU c5BadBody 7 99).2.1 (by decide))⟩

/-- C6: completeAssignedTask succeeds exactly when the task exists, is
assigned to the caller and has status assigned or in_progress; on success it
applies the completion update (status completed, completion timestamp,
optional proof reference) and returns the updated row; a missing task or a
foreign assignee answers 404 and a status outside the allowed set answers
400, in both cases leaving the store untouched. -/
theorem c6_completeAssignedTask (st : Store) (caller : User) (tid : Nat)
    (p : Option String) (now : Nat) :
    (getTaskById st tid = none →
      completeAssignedTask st caller tid p now
        = (HResult.err 404 "Task not found or not assigned to you", st)) ∧
    (∀ t, getTaskById st tid = some t → t.assignedTo ≠ some caller.id →
      completeAssignedTask st caller tid p now
        = (HResult.err 404 "Task not found or not assigned to you", st)) ∧
    (∀ t, getTaskById st tid = some t → t.assignedTo = some caller.id →
      t.status ≠ TaskStatus.assigned → t.status ≠ TaskStatus.in_progress →
      completeAssignedTask st caller tid p now
        = (HResult.err 400 "Task cannot be completed", st)) ∧
    (∀ t, getTaskById st tid = some t → t.assignedTo = some caller.id →
      (t.status = TaskStatus.assigned ∨ t.status = TaskStatus.in_progress) →
      completeAssignedTask st caller tid p now
        = (HResult.ok (some (completionUpdate p now t)),
           updateTaskStore st tid (completionUpdate p now)) ∧
      (completionUpdate p now t).status = TaskStatus.completed ∧
      (completionUpdate p now t).completedAt = some now ∧
      (∀ f, p = some f → (completionUpdate p now t).proofFile = some f)) := by
  refine ⟨?_, ?_, ?_, ?_⟩
  · intro h
    unfold completeAssignedTask
    rw [h]
  · intro t ht hne
    have hb : (t.assignedTo != some caller.id) = true := by
      simpa using hne
    rw [completeAssignedTask_found st caller tid p now t ht, if_pos hb]
  · intro t ht hass h3 h4
    have hb : (t.assignedTo != some caller.id) = false := by
      rw [hass]
      simp
    have hc : (t.status != TaskStatus.assigned && t.status != TaskStatus.in_progress) = true := by
      simp only [Bool.and_eq_true, bne_iff_ne]
      exact ⟨h3, h4⟩
    rw [completeAssignedTask_found st caller tid p now t ht, hb,
      if_neg Bool.false_ne_true, if_pos hc]
  · intro t ht hass hstat
    have hb : (t.assignedTo != some caller.id) = false := by
      rw [hass]
      simp
    have hc : (t.status != TaskStatus.assigned && t.status != TaskStatus.in_progress) = false := by
      rcases hstat with h | h <;> rw [h] <;> rfl
    refine ⟨?_, rfl, rfl, ?_⟩
    · rw [completeAssignedTask_found st caller tid p now t ht, hb,
        if_neg Bool.false_ne_true, hc, if_neg Bool.false_ne_true,
        getTaskById_updateTaskStore st tid (completionUpdate p now) (fun x => rfl), ht]
      rfl
    · intro f hf
      rw [hf]
      rfl

/-- Witness for C6: completing an assigned task succeeds and applies the
update; completing an already-completed one answers 400; a missing task
answers 404. -/
theorem c6_completeAssignedTask_witness :
    completeAssignedTask c6Store bobU 4 (some "/uploads/proof-files/x.pdf") 77
      = (HResult.ok (some (completionUpdate (some "/uploads/proof-files/x.pdf") 77 c6AssignedTask)),
         updateTaskStore c6Store 4 (completionUpdate (some "/uploads/proof-files/x.pdf") 77)) ∧
    completeAssignedTask c6Store bobU 5 none 77
      = (HResult.err 400 "Task cannot be completed", c6Store) ∧
    completeAssignedTask c6Store bobU 6 none 77
      = (HResult.err 404 "Task not found or not assigned to you", c6Store) :=
  ⟨((c6_completeAssignedTask c6Store bobU 4 (some "/uploads/proof-files/x.pdf") 77).2.2.2
      c6AssignedTask (by decide) (by decide) (Or.inl (by decide))).1,
   ((c6_completeAssignedTask c6Store bobU 5 none 77).2.2.1
      c6DoneTask (by decide) (by decide) (by decide) (by decide)),
   ((c6_completeAssignedTask c6Store bobU 6 none 77).1 (by decide))⟩

/-- C7: every admin-gated operation (reviewTask, assignTask,
listPendingTasks, getAdminStats) called by an authenticated non-admin fails
with 403 before touching anything, whatever the rest of the input; the store
is returned unchanged. -/
theorem c7_nonadmin_forbidden (st : Store) (caller : User) (tid newId now : Nat)
    (rbody : ReviewBody) (abody : AssignBody) (h : caller.role ≠ Role.admin) :
    reviewTask st caller tid rbody now = (HResult.err 403 "Admin access required", st) ∧
    assignTask st caller abody newId now = (HResult.err 403 "Forbidden", st) ∧
    listPendingTasks st caller = HResult.err 403 "Admin access required" ∧
    adminStatsHandler st caller now = HResult.err 403 "Admin access required" := by
  have hb : (caller.role != Role.admin) = true := by
    simpa using h
  refine ⟨?_, ?_, ?_, ?_⟩
  · unfold reviewTask
    rw [if_pos hb]
  · unfold assignTask
    rw [if_pos hb]
  · unfold listPendingTasks
    rw [if_pos hb]
  · unfold adminStatsHandler
    rw [if_pos hb]

/-- Witness for C7 with a concrete non-admin caller. -/
theorem c7_nonadmin_forbidden_witness :
    reviewTask baseStore aliceU 1 c1Body 100
      = (HResult.err 403 "Admin access required", baseStore) ∧
    assignTask baseStore aliceU emptyAssignBody 7 100
      = (HResult.err 403 "Forbidden", baseStore) ∧
    listPendingTasks baseStore aliceU = HResult.err 403 "Admin access required" ∧
    adminStatsHandler baseStore aliceU 100 = HResult.err 403 "Admin access required" :=
  c7_nonadmin_forbidden baseStore aliceU 1 7 100 c1Body emptyAssignBody (by decide)

/-- C8: the rank query applies ROW_NUMBER() after the WHERE filter has
already narrowed the rows to the single requested user, so every existing
role=user account is reported at rank 1 — here the 10-point user is ranked
1 although another user account holds strictly more points, so the
spec-worded rank (1-based position in the points-descending order) is 2. -/
theorem c8_rank_query_code_bug :
    (getUserStats c8Store 1).rank = 1 ∧
    specRankDescByPoints c8Store.users 1 = 2 ∧
    (getUserStats c8Store 2).rank = 1 ∧
    specRankDescByPoints c8Store.users 2 = 1 := by decide

/-- C9 counterexample: an admin review with decision=approved and
awardedPoints = -5 passes validation and decrements the submitter's total
points from 0 to -5, so total points can decrease. -/
theorem c9_counterexample :
    totalPointsOf baseStore 1 = 0 ∧
    totalPointsOf (reviewTask baseStore adminU 1 c9NegBody 100).2 1 = -5 := by decide

/-- C9 (amended): the only write path that ever touches a user's total
points is the review handler's approval award, which adds the admin-supplied
points value; since the schema does not constrain that value to be
nonnegative, a negative award can lower the total — but under every sequence
of operations whose review bodies carry only nonnegative points, no user's
total points ever decreases. -/
theorem c9_points_monotone_under_nonneg_awards (st : Store) (ops : List Op) (uid : Nat)
    (h : ops.all nonnegAward = true) :
    totalPointsOf st uid ≤ totalPointsOf (applyOps st ops) uid := by
  induction ops generalizing st with
  | nil => exact le_refl _
  | cons op ops ih =>
    rw [List.all_cons, Bool.and_eq_true] at h
    exact le_trans (totalPointsOf_applyOp_mono st op uid h.1) (ih (applyOp st op) h.2)

/-- Witness for C9's amended theorem on a concrete nonnegative-award
sequence. -/
theorem c9_points_monotone_witness :
    ([c9GoodOp].all nonnegAward = true) ∧
    totalPointsOf baseStore 1 ≤ totalPointsOf (applyOps baseStore [c9GoodOp]) 1 :=
  ⟨by decide, c9_points_monotone_under_nonneg_awards baseStore [c9GoodOp] 1 (by decide)⟩

/-- C10: getUserStats called with a userId matching no user record raises no
error and returns the all-zero stats object (totalPoints 0, completedTasks
0, pendingTasks 0, rank 0). -/
theorem c10_missing_user_zero_stats (st : Store) (uid : Nat) (h : getUser st uid = none) :
    getUserStats st uid
      = { totalPoints := 0, completedTasks := 0, pendingTasks := 0, rank := 0 } := by
  unfold getUserStats
  rw [h]

/-- Witness for C10 at a user id present in no row. -/
theorem c10_missing_user_zero_stats_witness :
    getUserStats baseStore 42
      = { totalPoints := 0, completedTasks := 0, pendingTasks := 0, rank := 0 } :=
  c10_missing_user_zero_stats baseStore 42 (by decide)

end TaskPoint
